import Mathlib

/-!
Fitting/FastNumericalIntegration_src/integration_fns.cpp

A shallow embedding of the two integrand classes (`StrExp`, `MixedStrExp`) and
of the `Integrator` wrappers.

* The scalar type `double` is a type parameter `D`; the `<math.h>` functions
  `exp` and `pow` are parameters of the evaluators, so the definitions follow
  the C++ expressions operator by operator and stay computable.
* `DEIntegrator<T>::Integrate` comes from `DEIntegrator.h`, which is not among
  the sources; the wrappers take it as the parameter `Integrate`.
* `Integrator::MixedStrExp` mentions two identifiers, `aamp` and `life`, that it
  does not declare.  They are read from the enclosing scope and are therefore
  parameters of the embedded method.

Analytic statements instantiate `D` with `ℝ`, `exp` with `Real.exp` and `pow`
with `Real.rpow`: rounding, overflow and NaN are not modelled there.
-/

set_option linter.unusedVariables false

open MeasureTheory

namespace Fitting

/-- The signature of `DEIntegrator<T>::Integrate(f, a, b, targetAbsoluteError)`. -/
abbrev Quadrature (D : Type) : Type := (D → D) → D → D → D → D

/-- Class `StrExp`, fields in declaration order (lines 17-20). -/
structure StrExp (D : Type) where
  lambda : D
  beta : D
  lifetime : D
  t : D

/-- Class `MixedStrExp`, fields in declaration order (lines 43-49). -/
structure MixedStrExp (D : Type) where
  lambda1 : D
  beta1 : D
  lambda2 : D
  beta2 : D
  alpha : D
  lifetime : D
  t : D

/-- Class `Integrator`: the one data member (line 79). -/
structure Integrator (D : Type) where
  lifetime : D

/-- The constructor `StrExp::StrExp(t1, lambda1, beta1, probelife)` (lines 23-29). -/
def StrExp.init {D : Type} (t1 lambda1 beta1 probelife : D) : StrExp D :=
  { lambda := lambda1, beta := beta1, lifetime := probelife, t := t1 }

/-- Method `StrExp::operator()(tprime)` (lines 32-35). -/
def StrExp.call {D : Type} [Sub D] [Mul D] [Div D] [Neg D]
    (exp : D → D) (pow : D → D → D) (self : StrExp D) (tprime : D) : D :=
  exp ((tprime - self.t) / self.lifetime) *
    exp (-pow ((self.t - tprime) * self.lambda) self.beta)

/-- The constructor `MixedStrExp::MixedStrExp(t1, lambda11, beta11, lambda21, beta21, alpha1,
probelife)` (lines 52-62). -/
def MixedStrExp.init {D : Type}
    (t1 lambda11 beta11 lambda21 beta21 alpha1 probelife : D) : MixedStrExp D :=
  { lambda1 := lambda11, lambda2 := lambda21, beta1 := beta11, beta2 := beta21,
    alpha := alpha1, lifetime := probelife, t := t1 }

/-- Method `MixedStrExp::operator()(tprime)` (lines 65-70). -/
def MixedStrExp.call {D : Type} [Add D] [Sub D] [Mul D] [Div D] [Neg D] [OfNat D 1]
    (exp : D → D) (pow : D → D → D) (self : MixedStrExp D) (tprime : D) : D :=
  exp ((tprime - self.t) / self.lifetime) *
    (self.alpha * exp (-pow ((self.t - tprime) * self.lambda1) self.beta1) +
      (1 - self.alpha) * exp (-pow ((self.t - tprime) * self.lambda2) self.beta2))

/-- The constructor `Integrator::Integrator(lifetime)` (lines 93-96). -/
def Integrator.init {D : Type} (lifetime : D) : Integrator D :=
  { lifetime := lifetime }

/-- Method `Integrator::StrExp(t, tprime, lamb, beta)` (lines 99-103); `StrExp` in
its body is the class of lines 14-36. -/
def Integrator.StrExp {D : Type} [Sub D] [Mul D] [Div D] [Neg D] [OfNat D 0]
    [OfScientific D] (exp : D → D) (pow : D → D → D) (Integrate : Quadrature D)
    (self : Integrator D) (t tprime lamb beta : D) : D :=
  Integrate (Fitting.StrExp.call exp pow (Fitting.StrExp.init t lamb beta self.lifetime)) 0
    tprime 1e-6

/-- Method `Integrator::MixedStrExp(t, tprime, lamb1, beta1, lamb2, beta2, amp)`
(lines 106-112).  The body names `aamp` and `life`, which are neither
parameters nor members; they are the two leading scope parameters here. -/
def Integrator.MixedStrExp {D : Type} [Add D] [Sub D] [Mul D] [Div D] [Neg D]
    [OfNat D 0] [OfNat D 1] [OfScientific D] (exp : D → D) (pow : D → D → D)
    (Integrate : Quadrature D) (aamp life : D)
    (self : Integrator D) (t tprime lamb1 beta1 lamb2 beta2 amp : D) : D :=
  Integrate
    (Fitting.MixedStrExp.call exp pow
      (Fitting.MixedStrExp.init t lamb1 beta1 lamb2 beta2 aamp life))
    0 tprime 1e-6

/-- Modelled from the spec: the accuracy contract of the quadrature primitive
`DEIntegrator<T>::Integrate`, declared in `DEIntegrator.h`, which is not among
the sources.  Section 6 of the spec: the primitive returns "a best-effort
estimate within `tolerance`" of the definite integral of `f` over
`[lower, upper]`; the estimate is read as an absolute error bound for continuous
integrands and a positive tolerance. -/
def WithinTolerance (Integrate : Quadrature ℝ) : Prop :=
  ∀ (f : ℝ → ℝ) (a b tol : ℝ), Continuous f → 0 < tol →
    |Integrate f a b tol - ∫ x in a..b, f x| ≤ tol

/-- What the body of `Integrator::MixedStrExp` hands to the primitive: the mixed
integrand built from the scope identifiers `aamp` and `life`. -/
theorem Integrator_MixedStrExp_unfold {D : Type} [Add D] [Sub D] [Mul D] [Div D] [Neg D]
    [OfNat D 0] [OfNat D 1] [OfScientific D] (exp : D → D) (pow : D → D → D)
    (Integrate : Quadrature D) (aamp life : D) (self : Integrator D)
    (t tprime lamb1 beta1 lamb2 beta2 amp : D) :
    Integrator.MixedStrExp exp pow Integrate aamp life self t tprime lamb1 beta1 lamb2 beta2 amp =
      Integrate (MixedStrExp.call exp pow (MixedStrExp.init t lamb1 beta1 lamb2 beta2 aamp life))
        0 tprime 1e-6 :=
  rfl

/-- With `alpha = 1` the mixed integrand is the single integrand of its first
component (in a field). -/
theorem MixedStrExp_call_alpha_one {D : Type} [Field D] (exp : D → D) (pow : D → D → D)
    (t lambda1 beta1 lambda2 beta2 lifetime : D) :
    MixedStrExp.call exp pow (MixedStrExp.init t lambda1 beta1 lambda2 beta2 1 lifetime) =
      StrExp.call exp pow (StrExp.init t lambda1 beta1 lifetime) := by
  funext s
  simp [MixedStrExp.call, MixedStrExp.init, StrExp.call, StrExp.init]

/-- With `alpha = 0` the mixed integrand is the single integrand of its second
component (in a field). -/
theorem MixedStrExp_call_alpha_zero {D : Type} [Field D] (exp : D → D) (pow : D → D → D)
    (t lambda1 beta1 lambda2 beta2 lifetime : D) :
    MixedStrExp.call exp pow (MixedStrExp.init t lambda1 beta1 lambda2 beta2 0 lifetime) =
      StrExp.call exp pow (StrExp.init t lambda2 beta2 lifetime) := by
  funext s
  simp [MixedStrExp.call, MixedStrExp.init, StrExp.call, StrExp.init]

/-- Over the reals with `beta = 1` the single integrand is a plain exponential. -/
theorem StrExp_call_real_beta_one (t lambda lifetime s : ℝ) :
    StrExp.call Real.exp Real.rpow (StrExp.init t lambda 1 lifetime) s =
      Real.exp ((s - t) / lifetime) * Real.exp (-lambda * (t - s)) := by
  simp only [StrExp.call, StrExp.init, Real.rpow_eq_pow, Real.rpow_one]
  congr 2
  ring

/-- The plain exponential of `StrExp_call_real_beta_one` has a single rate
`k = 1/lifetime + lambda`. -/
theorem plain_exponential_rate (t lambda lifetime s : ℝ) :
    Real.exp ((s - t) / lifetime) * Real.exp (-lambda * (t - s)) =
      Real.exp ((s - t) * (1 / lifetime + lambda)) := by
  rw [← Real.exp_add]
  congr 1
  ring

/-- The antiderivative of `exp((s - t) * k)` evaluated between 0 and `tprime`. -/
theorem exp_affine_integral (t k tprime : ℝ) (hk : k ≠ 0) :
    ∫ s in (0:ℝ)..tprime, Real.exp ((s - t) * k) =
      (Real.exp ((tprime - t) * k) - Real.exp (-t * k)) / k := by
  have hderiv : ∀ x ∈ Set.uIcc (0:ℝ) tprime,
      HasDerivAt (fun s => Real.exp ((s - t) * k) / k) (Real.exp ((x - t) * k)) x := by
    intro x _
    have h1 : HasDerivAt (fun s : ℝ => (s - t) * k) k x := by
      simpa using ((hasDerivAt_id x).sub_const t).mul_const k
    have h2 := (h1.exp).div_const k
    convert h2 using 1
    field_simp
  have hint : IntervalIntegrable (fun s => Real.exp ((s - t) * k)) volume 0 tprime :=
    (by fun_prop : Continuous fun s : ℝ => Real.exp ((s - t) * k)).intervalIntegrable _ _
  rw [intervalIntegral.integral_eq_sub_of_hasDerivAt hderiv hint]
  simp only [zero_sub]
  ring

/-- The definite integral over `[0, tprime]` of the real single integrand with
`beta = 1`. -/
theorem StrExp_integral_beta_one (t lambda lifetime tprime : ℝ)
    (hk : 1 / lifetime + lambda ≠ 0) :
    ∫ s in (0:ℝ)..tprime, StrExp.call Real.exp Real.rpow (StrExp.init t lambda 1 lifetime) s =
      (Real.exp ((tprime - t) * (1 / lifetime + lambda)) -
        Real.exp (-t * (1 / lifetime + lambda))) / (1 / lifetime + lambda) := by
  simp only [StrExp_call_real_beta_one, plain_exponential_rate]
  exact exp_affine_integral t _ tprime hk

/-- Over the reals the single integrand is positive at every point. -/
theorem StrExp_call_real_pos (self : StrExp ℝ) (s : ℝ) :
    0 < StrExp.call Real.exp Real.rpow self s :=
  mul_pos (Real.exp_pos _) (Real.exp_pos _)

/-- Over the reals the single integrand is continuous when `0 ≤ beta`. -/
theorem StrExp_call_real_continuous (self : StrExp ℝ) (hbeta : 0 ≤ self.beta) :
    Continuous (StrExp.call Real.exp Real.rpow self) := by
  have hpow : Continuous fun s : ℝ => Real.rpow ((self.t - s) * self.lambda) self.beta :=
    (Real.continuous_rpow_const hbeta).comp (by fun_prop)
  have h1 : Continuous fun s : ℝ => Real.exp ((s - self.t) / self.lifetime) := by fun_prop
  exact h1.mul (Real.continuous_exp.comp hpow.neg)

/-- Over the reals, for `0 ≤ beta`, the definite integral of the single integrand
over `[0, x]` does not decrease when `x` grows. -/
theorem StrExp_integral_mono (self : StrExp ℝ) (hbeta : 0 ≤ self.beta) (a b : ℝ)
    (hab : a ≤ b) :
    ∫ s in (0:ℝ)..a, StrExp.call Real.exp Real.rpow self s ≤
      ∫ s in (0:ℝ)..b, StrExp.call Real.exp Real.rpow self s := by
  have hcont := StrExp_call_real_continuous self hbeta
  have h0a : IntervalIntegrable (StrExp.call Real.exp Real.rpow self) volume 0 a :=
    hcont.intervalIntegrable 0 a
  have hab' : IntervalIntegrable (StrExp.call Real.exp Real.rpow self) volume a b :=
    hcont.intervalIntegrable a b
  have hsplit := intervalIntegral.integral_add_adjacent_intervals h0a hab'
  have hnn : 0 ≤ ∫ s in a..b, StrExp.call Real.exp Real.rpow self s :=
    intervalIntegral.integral_nonneg hab (fun s _ => (StrExp_call_real_pos self s).le)
  linarith

/-- With a primitive that only meets its tolerance, the single wrapper is
non-decreasing in `tprime` up to twice the tolerance 1e-6. -/
theorem Integrator_StrExp_monotone_up_to_tolerance (Integrate : Quadrature ℝ)
    (hQ : WithinTolerance Integrate) (t lambda beta lifetime a b : ℝ) (hbeta : 0 < beta)
    (hab : a ≤ b) :
    Integrator.StrExp Real.exp Real.rpow Integrate (Integrator.init lifetime) t a lambda beta ≤
      Integrator.StrExp Real.exp Real.rpow Integrate (Integrator.init lifetime) t b lambda beta +
        2e-6 := by
  have hb : 0 ≤ (StrExp.init t lambda beta lifetime).beta := by
    simpa [StrExp.init] using hbeta.le
  have hcont := StrExp_call_real_continuous _ hb
  have hmono := StrExp_integral_mono _ hb a b hab
  have h1 := abs_le.mp (hQ _ 0 a 1e-6 hcont (by norm_num))
  have h2 := abs_le.mp (hQ _ 0 b 1e-6 hcont (by norm_num))
  simp only [Integrator.StrExp, Integrator.init]
  norm_num at h1 h2 ⊢
  linarith [h1.2, h2.1]

/-- C1: the integrand built by `StrExp(t, lambda, beta, lifetime)` has its four
positional arguments in the fields `t`, `lambda`, `beta`, `lifetime`, and its
value at `tprime` is `exp((tprime - t)/lifetime) * exp(-pow((t - tprime)*lambda, beta))`,
for every scalar type and every `exp`, `pow`. -/
theorem StrExp_call_formula {D : Type} [Sub D] [Mul D] [Div D] [Neg D]
    (exp : D → D) (pow : D → D → D) (t lambda beta lifetime tprime : D) :
    StrExp.call exp pow (StrExp.init t lambda beta lifetime) tprime =
        exp ((tprime - t) / lifetime) * exp (-pow ((t - tprime) * lambda) beta) ∧
      (StrExp.init t lambda beta lifetime).t = t ∧
      (StrExp.init t lambda beta lifetime).lambda = lambda ∧
      (StrExp.init t lambda beta lifetime).beta = beta ∧
      (StrExp.init t lambda beta lifetime).lifetime = lifetime :=
  ⟨rfl, rfl, rfl, rfl, rfl⟩

/-- C2: the integrand built by `MixedStrExp(t, lambda1, beta1, lambda2, beta2,
alpha, lifetime)` evaluates at `tprime` to `exp((tprime - t)/lifetime) *
(alpha*exp(-pow((t - tprime)*lambda1, beta1)) + (1 - alpha)*exp(-pow((t - tprime)*lambda2, beta2)))`,
for every scalar type and every `exp`, `pow`; the seven positional arguments
land in the fields `t`, `lambda1`, `beta1`, `lambda2`, `beta2`, `alpha`, `lifetime`. -/
theorem MixedStrExp_call_formula {D : Type} [Add D] [Sub D] [Mul D] [Div D] [Neg D]
    [OfNat D 1] (exp : D → D) (pow : D → D → D)
    (t lambda1 beta1 lambda2 beta2 alpha lifetime tprime : D) :
    MixedStrExp.call exp pow
        (MixedStrExp.init t lambda1 beta1 lambda2 beta2 alpha lifetime) tprime =
      exp ((tprime - t) / lifetime) *
        (alpha * exp (-pow ((t - tprime) * lambda1) beta1) +
          (1 - alpha) * exp (-pow ((t - tprime) * lambda2) beta2)) ∧
      (MixedStrExp.init t lambda1 beta1 lambda2 beta2 alpha lifetime).lambda1 = lambda1 ∧
      (MixedStrExp.init t lambda1 beta1 lambda2 beta2 alpha lifetime).beta1 = beta1 ∧
      (MixedStrExp.init t lambda1 beta1 lambda2 beta2 alpha lifetime).lambda2 = lambda2 ∧
      (MixedStrExp.init t lambda1 beta1 lambda2 beta2 alpha lifetime).beta2 = beta2 ∧
      (MixedStrExp.init t lambda1 beta1 lambda2 beta2 alpha lifetime).alpha = alpha ∧
      (MixedStrExp.init t lambda1 beta1 lambda2 beta2 alpha lifetime).lifetime = lifetime ∧
      (MixedStrExp.init t lambda1 beta1 lambda2 beta2 alpha lifetime).t = t :=
  ⟨rfl, rfl, rfl, rfl, rfl, rfl, rfl, rfl⟩

/-- C4: the code at a failing input.  With the definite integral as primitive,
`Integrator(1).MixedStrExp(t, tprime, lamb1, beta1, lamb2, beta2, amp)` differs
from the integral of the integrand the claim names, `MixedStrExp(t, lamb1, beta1,
lamb2, beta2, amp, lifetime)`: first when the scope identifier `aamp` is 0 while
`amp` is 1, then when the scope identifier `life` is 2 while the stored
lifetime is 1. -/
theorem Integrator_MixedStrExp_stray_identifiers :
    Integrator.MixedStrExp Real.exp Real.rpow (fun f a b _ => ∫ x in a..b, f x) 0 1
          (Integrator.init 1) 1 1 1 1 0 1 1 ≠
        ∫ s in (0:ℝ)..1,
          MixedStrExp.call Real.exp Real.rpow (MixedStrExp.init 1 1 1 0 1 1 1) s ∧
      Integrator.MixedStrExp Real.exp Real.rpow (fun f a b _ => ∫ x in a..b, f x) 1 2
          (Integrator.init 1) 1 1 0 1 0 1 1 ≠
        ∫ s in (0:ℝ)..1,
          MixedStrExp.call Real.exp Real.rpow (MixedStrExp.init 1 0 1 0 1 1 1) s := by
  have hx1 : Real.exp (-1) < 1 := Real.exp_lt_one_iff.mpr (by norm_num)
  have hx0 : 0 < Real.exp (-1) := Real.exp_pos _
  have hy1 : Real.exp (-(1 / 2)) < 1 := Real.exp_lt_one_iff.mpr (by norm_num)
  have hsq : Real.exp (-2) = Real.exp (-1) * Real.exp (-1) := by
    rw [← Real.exp_add]; norm_num
  have hhalf : Real.exp (-1) = Real.exp (-(1 / 2)) * Real.exp (-(1 / 2)) := by
    rw [← Real.exp_add]; norm_num
  constructor
  · simp only [Integrator.MixedStrExp, MixedStrExp_call_alpha_zero, MixedStrExp_call_alpha_one]
    rw [StrExp_integral_beta_one 1 0 1 1 (by norm_num),
      StrExp_integral_beta_one 1 1 1 1 (by norm_num)]
    norm_num
    intro h
    nlinarith [mul_pos (sub_pos.mpr hx1) (sub_pos.mpr hx1)]
  · simp only [Integrator.MixedStrExp, MixedStrExp_call_alpha_one]
    rw [StrExp_integral_beta_one 1 0 2 1 (by norm_num),
      StrExp_integral_beta_one 1 0 1 1 (by norm_num)]
    norm_num
    intro h
    nlinarith [mul_pos (sub_pos.mpr hy1) (sub_pos.mpr hy1)]

/-- C5: the code at a failing input.  With the definite integral as primitive,
stored lifetime 1, `t = tprime = 1`, `(lamb1, beta1) = (1, 1)`,
`(lamb2, beta2) = (0, 1)` and `amp = 1`, while the scope identifiers hold
`aamp = 0` and `life = 1`, the mixed wrapper and the single wrapper on
`(lamb1, beta1)` differ by more than 1e-6. -/
theorem Integrator_MixedStrExp_alpha_one_mismatch :
    1e-6 < |Integrator.MixedStrExp Real.exp Real.rpow (fun f a b _ => ∫ x in a..b, f x) 0 1
          (Integrator.init 1) 1 1 1 1 0 1 1 -
        Integrator.StrExp Real.exp Real.rpow (fun f a b _ => ∫ x in a..b, f x)
          (Integrator.init 1) 1 1 1 1| := by
  have hx0 : 0 < Real.exp (-1) := Real.exp_pos _
  have hx : Real.exp (-1) < 1 / 2 := by
    have h2 : (2:ℝ) < Real.exp 1 := by
      have := Real.add_one_lt_exp (one_ne_zero : (1:ℝ) ≠ 0)
      linarith
    rw [Real.exp_neg, one_div]
    exact inv_strictAnti₀ (by norm_num) h2
  have hsq : Real.exp (-2) = Real.exp (-1) * Real.exp (-1) := by
    rw [← Real.exp_add]; norm_num
  simp only [Integrator.MixedStrExp, Integrator.StrExp, Integrator.init,
    MixedStrExp_call_alpha_zero]
  rw [StrExp_integral_beta_one 1 0 1 1 (by norm_num),
    StrExp_integral_beta_one 1 1 1 1 (by norm_num)]
  norm_num
  rw [lt_abs]
  left
  nlinarith [mul_pos (sub_pos.mpr hx) (sub_pos.mpr hx)]

end Fitting
